import Mathlib

/-!
Shallow embedding of the navigation / UI state machine of Rust-Traverse.

Source files embedded:
  - src/src/ui/run_app.rs   (the key-dispatch loop `run_app`)
  - src/src/ui/render.rs    (`render_contents`, the preview pane)

The repository's `src/app.rs` (struct `App`, `StatefulList`, `create_file`,
`update_files`, ...) and `src/ui/pane.rs` (`get_pwd`) are not part of the
given sources; the definitions below that embed them are modelled from the
specification and carry a doc comment saying so.
-/

namespace Traverse

/-- ratatui's `ListState`, reduced to the field the program reads and writes:
the optional selected index (`ListState::select` / `ListState::selected`). -/
structure ListState where
  selected : Option Nat
deriving DecidableEq, Repr

/-- ratatui `ListState::select`: stores the given optional index verbatim. -/
def ListState.select (st : ListState) (idx : Option Nat) : ListState :=
  { st with selected := idx }

/-- Modelled from the spec: `StatefulList<T>` of the missing `src/app.rs`
(spec section 3, SelectableList): an ordered item sequence plus a `ListState`
cursor. Items of the files/dirs lists are Rust tuples whose `.0` component
(the entry name) is the only field the dispatch loop reads, so items are
plain strings here. -/
structure StatefulList (α : Type) where
  items : List α
  state : ListState
deriving DecidableEq, Repr

/-- Modelled from the spec: `next()` of the missing `src/app.rs`
(spec section 4.1): no-op if `items` is empty or `cursor = None`; else
`cursor = Some((cursor+1) mod items.len())`, wrapping to 0 past the end. -/
def StatefulList.next (l : StatefulList α) : StatefulList α :=
  match l.state.selected with
  | none => l
  | some i =>
      if l.items.isEmpty then l
      else { l with state := l.state.select (some ((i + 1) % l.items.length)) }

/-- Modelled from the spec: `previous()` of the missing `src/app.rs`
(spec section 4.1): symmetric wraparound, from index 0 to `items.len()-1`. -/
def StatefulList.previous (l : StatefulList α) : StatefulList α :=
  match l.state.selected with
  | none => l
  | some i =>
      if l.items.isEmpty then l
      else
        { l with
          state := l.state.select (some (if i = 0 then l.items.length - 1 else i - 1)) }

/-- Modelled from the spec: `replace_items(new_items)` of the missing
`src/app.rs` (spec section 4.1): sets `items = new_items`; a cursor now out of
range is clamped to `items.len()-1` if non-empty, else cleared to `None`. -/
def StatefulList.replaceItems (l : StatefulList α) (newItems : List α) :
    StatefulList α :=
  let cursor :=
    match l.state.selected with
    | none => none
    | some i =>
        if i < newItems.length then some i
        else if newItems.isEmpty then none
        else some (newItems.length - 1)
  { items := newItems, state := { selected := cursor } }

/-- The filesystem collaborator (spec section 6), as pure response functions:
what `list_dir` returns for the files pane and for the dirs pane (the dirs
response includes the synthetic parent entry, spec section 3), and whether
`std::env::set_current_dir` succeeds on a path. A path is its list of
components from the root. -/
structure Fs where
  listFiles : List String → List String
  listDirs : List String → List String
  chdirOk : List String → Bool

/-- The `App` state of the missing `src/app.rs`, restricted to the fields
`run_app` reads and writes: the current directory (`cur_dir`, mirroring the
process working directory), the files and dirs lists, and `show_popup`. -/
structure App where
  curDir : List String
  files : StatefulList String
  dirs : StatefulList String
  showPopup : Bool
deriving DecidableEq, Repr

/-- Modelled from the spec: `App::update_files` of the missing `src/app.rs`
(spec sections 3 and 4.2): repopulates `files` wholesale from the filesystem
collaborator at the current path, via `replace_items`. -/
def App.updateFiles (a : App) (fs : Fs) : App :=
  { a with files := a.files.replaceItems (fs.listFiles a.curDir) }

/-- Modelled from the spec: `App::update_dirs` of the missing `src/app.rs`,
symmetric to `update_files` for the dirs list. -/
def App.updateDirs (a : App) (fs : Fs) : App :=
  { a with dirs := a.dirs.replaceItems (fs.listDirs a.curDir) }

/-- A filesystem mutation requested from the collaborator
(`App::create_file` / `App::create_dir`, spec section 4.2): create the named
entry under the cached current path. -/
inductive Effect where
  | createFile (dir : List String) (name : String)
  | createDir (dir : List String) (name : String)
deriving DecidableEq, Repr

/-- The crossterm key codes the dispatch match distinguishes. -/
inductive KeyCode where
  | char (c : Char)
  | down
  | up
  | enter
  | esc
  | backspace
  | other
deriving DecidableEq, Repr

/-- A key event: code plus whether the CONTROL modifier is held. -/
structure KeyEvent where
  code : KeyCode
  ctrl : Bool
deriving DecidableEq, Repr

/-- The state owned by the `run_app` loop: the `App` plus the loop-local
`input` buffer and `input_active` flag of `run_app.rs` lines 17-18. -/
structure UiState where
  app : App
  input : String
  inputActive : Bool
deriving DecidableEq, Repr

/-- Outcome of dispatching one key event: continue with a new state and the
list of filesystem mutations requested, quit the loop (`return Ok(())`), or
panic (a Rust `unwrap()` failed). -/
inductive StepResult where
  | cont (s : UiState) (effects : List Effect)
  | quit
  | panicked
deriving DecidableEq, Repr

/-- run_app.rs lines 92-105: the directory the Enter arm resolves to. For the
synthetic entry the code pops the last component of the process working
directory (`path.pop()`); otherwise it changes into the named entry relative
to the working directory. -/
def enterTarget (a : App) (name : String) : List String :=
  if name = "../" then a.curDir.dropLast else a.curDir ++ [name]

/-- run_app.rs lines 96-120, the mutations the Enter arm performs once the
directory change succeeded: record the new working directory, repopulate both
lists (lines 106-107), clamp an out-of-range files cursor (lines 109-119),
and select dirs index 0 (line 120). -/
def enterApply (fs : Fs) (a : App) (newPath : List String) : App :=
  let a1 := { a with curDir := newPath }
  let a2 := (a1.updateFiles fs).updateDirs fs
  let a3 :=
    match a2.files.state.selected with
    | some selected =>
        if selected ≥ a2.files.items.length then
          if ¬ a2.files.items.isEmpty then
            { a2 with
              files :=
                { a2.files with
                  state :=
                    a2.files.state.select (some (a2.files.items.length - 1)) } }
          else
            { a2 with
              files := { a2.files with state := a2.files.state.select none } }
        else a2
    | none => a2
  { a3 with dirs := { a3.dirs with state := a3.dirs.state.select (some 0) } }

/-- run_app.rs lines 90-121, the Enter arm: when a dirs entry is selected,
change directory (to `enterTarget`) and apply `enterApply`.
`std::env::set_current_dir(..).unwrap()` panics on failure, and
`app.dirs.items[..]` panics when the index is out of bounds. -/
def enterStep (fs : Fs) (s : UiState) : StepResult :=
  match s.app.dirs.state.selected with
  | none => .cont s []
  | some j =>
      match s.app.dirs.items.get? j with
      | none => .panicked
      | some name =>
          let newPath := enterTarget s.app name
          if fs.chdirOk newPath then
            .cont { s with app := enterApply fs s.app newPath } []
          else .panicked

/-- run_app.rs lines 30-129: the full key-dispatch match, arm for arm and in
source order. Match-arm fallthrough of the guarded `Char('f')`/`Char('n')`
arms into the catch-all `Char(c)` arm is reproduced by the if-chain. -/
def step (fs : Fs) (s : UiState) (k : KeyEvent) : StepResult :=
  match k.code with
  | .char c =>
      if c = '1' then
        .cont { s with app := { s.app with
          files := { s.app.files with state := s.app.files.state.select (some 0) },
          dirs := { s.app.dirs with state := s.app.dirs.state.select none } } } []
      else if c = '2' then
        .cont { s with app := { s.app with
          dirs := { s.app.dirs with state := s.app.dirs.state.select (some 0) },
          files := { s.app.files with state := s.app.files.state.select none } } } []
      else if c = 'j' then
        .cont { s with app :=
          (if s.app.files.state.selected.isSome then
            { s.app with files := s.app.files.next }
          else if s.app.dirs.state.selected.isSome then
            { s.app with dirs := s.app.dirs.next }
          else s.app) } []
      else if c = 'k' then
        .cont { s with app :=
          (if s.app.files.state.selected.isSome then
            { s.app with files := s.app.files.previous }
          else if s.app.dirs.state.selected.isSome then
            { s.app with dirs := s.app.dirs.previous }
          else s.app) } []
      else if c = 'f' ∧ k.ctrl then
        if s.inputActive then
          .cont { app := { (s.app.updateFiles fs) with showPopup := false },
                  input := "", inputActive := false }
            [Effect.createFile s.app.curDir s.input]
        else
          .cont { s with app := { s.app with showPopup := true }, inputActive := true } []
      else if c = 'n' ∧ k.ctrl then
        if s.inputActive then
          .cont { app := { (s.app.updateDirs fs) with showPopup := false },
                  input := "", inputActive := false }
            [Effect.createDir s.app.curDir s.input]
        else
          .cont { s with app := { s.app with showPopup := true }, inputActive := true } []
      else if c = 'q' then
        if s.inputActive then
          .cont { s with inputActive := false, app := { s.app with showPopup := false } } []
        else .quit
      else
        if s.inputActive then .cont { s with input := s.input.push c } []
        else .cont s []
  | .down =>
      .cont { s with app :=
        (if s.app.files.state.selected.isSome then
          { s.app with files := s.app.files.next }
        else if s.app.dirs.state.selected.isSome then
          { s.app with dirs := s.app.dirs.next }
        else s.app) } []
  | .up =>
      .cont { s with app :=
        (if s.app.files.state.selected.isSome then
          { s.app with files := s.app.files.previous }
        else if s.app.dirs.state.selected.isSome then
          { s.app with dirs := s.app.dirs.previous }
        else s.app) } []
  | .esc =>
      if s.inputActive then
        .cont { s with inputActive := false, app := { s.app with showPopup := false } } []
      else .quit
  | .enter => enterStep fs s
  | .backspace =>
      if s.inputActive then .cont { s with input := s.input.dropRight 1 } []
      else .cont s []
  | .other => .cont s []

/-- The state carried by a continuing step, if any. -/
def StepResult.contState : StepResult → Option UiState
  | .cont s _ => some s
  | _ => none

/-- The filesystem mutations requested by a continuing step. -/
def StepResult.contEffects : StepResult → List Effect
  | .cont _ eff => eff
  | _ => []

/-- Concatenation of a list of strings, used to state what the preview body
amounts to. -/
def concatAll : List String → String
  | [] => ""
  | a :: rest => a ++ concatAll rest

/-- render.rs lines 324-332, one iteration of the read_line loop of
`render_contents`: the accumulator is `(content, total_line_count)`; the line
(as read by `read_line`, trailing newline included) is appended to `content`
only while `total_line_count <= 30`. -/
def previewStep (acc : String × Nat) (line : String) : String × Nat :=
  let total := acc.2 + 1
  (if total ≤ 30 then acc.1 ++ line else acc.1, total)

/-- render.rs lines 316-332: the whole read_line loop, starting from the
empty `content` and `total_line_count = 0`. -/
def previewFold (lines : List String) : String × Nat :=
  lines.foldl previewStep ("", 0)

/-- render.rs lines 308-314: name of the selected file, or the empty string
when nothing is selected or the index is out of range. -/
def selectedFileName (a : App) : String :=
  match a.files.state.selected with
  | some i =>
      match a.files.items.get? i with
      | some item => item
      | none => ""
  | none => ""

/-- render.rs lines 304-343, the text `render_contents` builds for the
Contents pane. The collaborator `readLines` gives a file's lines as
`read_line` returns them (trailing newline included); `File::open` is assumed
to succeed (its `unwrap` is outside the claims considered here). When more
than 30 lines were counted, the two trailer lines of lines 335-338 are
appended. -/
def renderContentsText (readLines : String → List String) (a : App) : String :=
  let sf := selectedFileName a
  let res := if sf ≠ "" then previewFold (readLines sf) else ("", 0)
  let content := res.1
  let total := res.2
  if total > 30 then
    content ++ ("\n... " ++ toString (total - 30) ++ " more lines")
      ++ ("\n" ++ toString total ++ " total")
  else content

/-- The focus-exclusivity invariant of spec section 3: at most one of the two
cursors is set. -/
def focusOk (a : App) : Prop :=
  a.files.state.selected = none ∨ a.dirs.state.selected = none

/-- Focus exclusivity holds after a step: for a continuing step it holds of
the new state; quitting and panicking leave no state to judge. -/
def focusOkRes : StepResult → Prop
  | .cont s _ => focusOk s.app
  | _ => True

/-- A concrete filesystem response: every directory holds two files and one
subdirectory besides the synthetic parent entry, and chdir succeeds. -/
def fsW : Fs :=
  { listFiles := fun _ => ["a.txt", "b.txt"]
    listDirs := fun _ => ["../", "src/"]
    chdirOk := fun _ => true }

/-- A concrete filesystem response on which every chdir fails. -/
def fsBad : Fs :=
  { listFiles := fun _ => ["a.txt", "b.txt"]
    listDirs := fun _ => ["../", "src/"]
    chdirOk := fun _ => false }

def keyOf (c : Char) : KeyEvent := { code := .char c, ctrl := false }

def ctrlKeyOf (c : Char) : KeyEvent := { code := .char c, ctrl := true }

def enterKey : KeyEvent := { code := .enter, ctrl := false }

/-- Concrete state for C1: the text-input overlay is open with an empty
buffer, and the files cursor sits on the first of two entries. -/
def sC1 : UiState :=
  { app :=
      { curDir := ["a", "b"]
        files := { items := ["x.txt", "y.txt"], state := { selected := some 0 } }
        dirs := { items := ["../", "src/"], state := { selected := none } }
        showPopup := true }
    input := ""
    inputActive := true }

/-- Concrete state for the C2 witness: dirs focused, files unfocused. -/
def sC2 : UiState :=
  { app :=
      { curDir := ["a", "b"]
        files := { items := ["x.txt", "y.txt"], state := { selected := none } }
        dirs := { items := ["../", "src/"], state := { selected := some 0 } }
        showPopup := false }
    input := ""
    inputActive := false }

/-- Concrete state for C3: five files with cursor on the last, dirs cursor on
the synthetic parent entry. -/
def sC3 : UiState :=
  { app :=
      { curDir := ["a", "b"]
        files := { items := ["1", "2", "3", "4", "5"], state := { selected := some 4 } }
        dirs := { items := ["../", "src/", "docs/"], state := { selected := some 0 } }
        showPopup := false }
    input := ""
    inputActive := false }

/-- Concrete state for C4: dirs cursor on the synthetic parent entry of
`/a/b`, files unfocused. -/
def sC4 : UiState :=
  { app :=
      { curDir := ["a", "b"]
        files := { items := ["x.txt"], state := { selected := none } }
        dirs := { items := ["../", "src/", "docs/"], state := { selected := some 0 } }
        showPopup := false }
    input := ""
    inputActive := false }

/-- Concrete state for C5: the prompt is open with buffer "notes" from
`/tmp`. -/
def sC5 : UiState :=
  { app :=
      { curDir := ["tmp"]
        files := { items := ["x.txt"], state := { selected := none } }
        dirs := { items := ["../"], state := { selected := none } }
        showPopup := true }
    input := "notes"
    inputActive := true }

/-- Concrete state for C6: the prompt is open with buffer "abc". -/
def sC6 : UiState :=
  { app :=
      { curDir := ["a", "b"]
        files := { items := ["x.txt", "y.txt"], state := { selected := some 0 } }
        dirs := { items := ["../", "src/"], state := { selected := none } }
        showPopup := true }
    input := "abc"
    inputActive := true }

/-- Concrete state for C7: the files list is empty and nothing is focused. -/
def sC7 : UiState :=
  { app :=
      { curDir := ["a", "b"]
        files := { items := [], state := { selected := none } }
        dirs := { items := ["../", "src/"], state := { selected := none } }
        showPopup := false }
    input := ""
    inputActive := false }

/-- Concrete state for C8: dirs cursor on a real subdirectory entry. -/
def sC8 : UiState :=
  { app :=
      { curDir := ["a", "b"]
        files := { items := ["x.txt"], state := { selected := none } }
        dirs := { items := ["../", "src/"], state := { selected := some 1 } }
        showPopup := false }
    input := ""
    inputActive := false }

/-- Concrete list for the C9 witness: three items, cursor on index 1. -/
def lC9 : StatefulList String :=
  { items := ["a", "b", "c"], state := { selected := some 1 } }

/-- Concrete app for the C10 witness: one file, selected. -/
def aC10 : App :=
  { curDir := ["a"]
    files := { items := ["big.txt"], state := { selected := some 0 } }
    dirs := { items := ["../"], state := { selected := none } }
    showPopup := false }

/-- Concrete file content for the C10 witness: 32 one-character lines. -/
def linesC10 : String → List String := fun _ => List.replicate 32 "x\n"

/-- A `replace_items` never turns an unset cursor into a set one. -/
theorem replaceItems_selected_none {α : Type} (l : StatefulList α)
    (x : List α) (h : l.state.selected = none) :
    (l.replaceItems x).state.selected = none := by
  simp [StatefulList.replaceItems, h]

/-- A `next()` on a list without cursor leaves the cursor unset. -/
theorem next_selected_none {α : Type} (l : StatefulList α)
    (h : l.state.selected = none) :
    l.next.state.selected = none := by
  simp [StatefulList.next, h]

/-- A `previous()` on a list without cursor leaves the cursor unset. -/
theorem previous_selected_none {α : Type} (l : StatefulList α)
    (h : l.state.selected = none) :
    l.previous.state.selected = none := by
  simp [StatefulList.previous, h]

/-- A `next()` never changes the items. -/
theorem next_items {α : Type} (l : StatefulList α) :
    l.next.items = l.items := by
  unfold StatefulList.next
  split
  · rfl
  · split <;> rfl

/-- On a non-empty list with a set cursor, `next()` advances the cursor by
one modulo the length. -/
theorem next_selected_some {α : Type} (l : StatefulList α) (m : Nat)
    (hsel : l.state.selected = some m) (hne : l.items ≠ []) :
    l.next.state.selected = some ((m + 1) % l.items.length) := by
  unfold StatefulList.next
  rw [hsel]
  simp [List.isEmpty_iff, hne, ListState.select]

/-- The Enter-arm mutation leaves the resolved path as the current
directory. -/
theorem enterApply_curDir (fs : Fs) (a : App) (p : List String) :
    (enterApply fs a p).curDir = p := by
  simp only [enterApply, App.updateFiles, App.updateDirs]
  split <;> (try split) <;> (try split) <;> rfl

/-- The Enter-arm mutation repopulates the files items from the new
directory. -/
theorem enterApply_files_items (fs : Fs) (a : App) (p : List String) :
    (enterApply fs a p).files.items = fs.listFiles p := by
  simp only [enterApply, App.updateFiles, App.updateDirs]
  split <;> (try split) <;> (try split) <;> rfl

/-- The Enter-arm mutation repopulates the dirs items from the new
directory. -/
theorem enterApply_dirs_items (fs : Fs) (a : App) (p : List String) :
    (enterApply fs a p).dirs.items = fs.listDirs p := by
  simp only [enterApply, App.updateFiles, App.updateDirs]
  split <;> (try split) <;> (try split) <;> rfl

/-- The Enter-arm mutation always ends with the dirs cursor on index 0. -/
theorem enterApply_dirs_selected (fs : Fs) (a : App) (p : List String) :
    (enterApply fs a p).dirs.state.selected = some 0 := by
  simp only [enterApply, App.updateFiles, App.updateDirs, ListState.select]

/-- The Enter-arm mutation keeps an unset files cursor unset. -/
theorem enterApply_files_selected_none (fs : Fs) (a : App) (p : List String)
    (h : a.files.state.selected = none) :
    (enterApply fs a p).files.state.selected = none := by
  have h2 : ((({ a with curDir := p }).updateFiles fs).updateDirs
      fs).files.state.selected = none := by
    simp [App.updateFiles, App.updateDirs, StatefulList.replaceItems, h]
  simp only [enterApply, h2]

/-- The Enter-arm mutation clamps a files cursor that falls out of range of
the repopulated items: to the new last index when the new list is non-empty,
to `none` when it is empty. -/
theorem enterApply_files_selected_clamped (fs : Fs) (a : App)
    (p : List String) (i : Nat)
    (hsel : a.files.state.selected = some i)
    (hout : (fs.listFiles p).length ≤ i) :
    (enterApply fs a p).files.state.selected
      = if fs.listFiles p = [] then none
        else some ((fs.listFiles p).length - 1) := by
  have h2 : ((({ a with curDir := p }).updateFiles fs).updateDirs
      fs).files
        = (a.files.replaceItems (fs.listFiles p)) := by
    simp [App.updateFiles, App.updateDirs]
  by_cases hemp : fs.listFiles p = []
  · have hsel2 : (a.files.replaceItems (fs.listFiles p)).state.selected
        = none := by
      simp [StatefulList.replaceItems, hsel, hemp]
    rw [if_pos hemp]
    simp only [enterApply, h2, hsel2]
  · have hlen : 0 < (fs.listFiles p).length := List.length_pos.mpr hemp
    have hsel2 : (a.files.replaceItems (fs.listFiles p)).state.selected
        = some ((fs.listFiles p).length - 1) := by
      have : ¬ i < (fs.listFiles p).length := by omega
      simp [StatefulList.replaceItems, hsel, this, hemp, List.isEmpty_iff]
    have hnotge : ¬ ((fs.listFiles p).length - 1
        ≥ (a.files.replaceItems (fs.listFiles p)).items.length) := by
      simp [StatefulList.replaceItems]
      omega
    rw [if_neg hemp]
    simp only [enterApply, h2, hsel2, hnotge, if_false, ListState.select]

/-- Iterating `next()` from a valid cursor keeps the items and moves the
cursor to the start plus the iteration count, modulo the length. -/
theorem next_iterate {α : Type} (l : StatefulList α) (i : Nat)
    (hne : l.items ≠ []) (hsel : l.state.selected = some i)
    (hlt : i < l.items.length) (k : Nat) :
    (StatefulList.next^[k] l).items = l.items
      ∧ (StatefulList.next^[k] l).state.selected
          = some ((i + k) % l.items.length) := by
  induction k with
  | zero => simpa [hsel] using (Nat.mod_eq_of_lt hlt).symm
  | succ k ih =>
      obtain ⟨hitems, hsel2⟩ := ih
      have hne2 : (StatefulList.next^[k] l).items ≠ [] := by
        rw [hitems]; exact hne
      constructor
      · rw [Function.iterate_succ_apply', next_items, hitems]
      · rw [Function.iterate_succ_apply',
          next_selected_some _ _ hsel2 hne2, hitems, Nat.mod_add_mod,
          Nat.add_assoc]

/-- The read_line loop of `render_contents`, run from an arbitrary
accumulator: it appends exactly the lines that bring the count to 30 or
less, and counts them all. -/
theorem previewFold_aux (lines : List String) :
    ∀ (s : String) (k : Nat),
      List.foldl previewStep (s, k) lines
        = (s ++ concatAll (lines.take (30 - k)), k + lines.length) := by
  induction lines with
  | nil => intro s k; simp [concatAll]
  | cons a t ih =>
      intro s k
      rw [List.foldl_cons]
      by_cases hk : k + 1 ≤ 30
      · have h30 : 30 - k = (30 - (k + 1)) + 1 := by omega
        rw [show previewStep (s, k) a = (s ++ a, k + 1) by
          simp [previewStep, hk]]
        rw [ih (s ++ a) (k + 1), h30, List.take_succ_cons]
        refine Prod.ext ?_ ?_
        · simp [concatAll, String.append_assoc]
        · simp; omega
      · have h30 : 30 - k = 0 := by omega
        rw [show previewStep (s, k) a = (s, k + 1) by
          simp [previewStep, hk]]
        rw [ih s (k + 1), h30, show 30 - (k + 1) = 0 by omega]
        refine Prod.ext ?_ ?_
        · simp [concatAll]
        · simp; omega

/-- Closed form of the read_line loop: the body is the concatenation of the
first 30 lines, and the count is the total number of lines. -/
theorem previewFold_eq (lines : List String) :
    previewFold lines = (concatAll (lines.take 30), lines.length) := by
  unfold previewFold
  rw [previewFold_aux]
  simp [String.empty_append]

/-- C1: demonstration of the code bug. With the text-input overlay open
(buffer empty) and the files cursor on index 0, pressing 'j' moves the files
cursor to index 1 and leaves the buffer empty. The claim says the overlay
captures the key: 'j' should have been appended to the buffer and the
cursors left unchanged. The `Char('j')` arm of the dispatch match precedes
the catch-all `Char(c)` arm and carries no `input_active` guard, so the key
reaches main-pane navigation while the prompt is open. -/
theorem C1_overlay_key_leaks_to_navigation :
    (step fsW sC1 (keyOf 'j')).contState.map
        (fun t => (t.app.files.state.selected, t.input))
      = some (some 1, "") := by
  rfl

/-- C5: pressing Ctrl+F while the text-input prompt is open requests creation
of a file named by the accumulated buffer under the current directory,
clears the buffer, and closes the overlay (`show_popup` and `input_active`
both return to false). -/
theorem C5_confirm_creates_file (fs : Fs) (s : UiState)
    (h : s.inputActive = true) :
    (step fs s (ctrlKeyOf 'f')).contEffects
        = [Effect.createFile s.app.curDir s.input]
      ∧ (step fs s (ctrlKeyOf 'f')).contState.map
            (fun t => (t.input, t.app.showPopup, t.inputActive))
          = some ("", false, false) := by
  constructor <;>
    simp [step, ctrlKeyOf, h, StepResult.contEffects, StepResult.contState]

/-- C5 witness: buffer "notes" typed from /tmp; confirming requests file
"notes" under /tmp and the overlay closes. -/
theorem C5_witness :
    sC5.inputActive = true
      ∧ ((step fsW sC5 (ctrlKeyOf 'f')).contEffects
            = [Effect.createFile ["tmp"] "notes"]
          ∧ (step fsW sC5 (ctrlKeyOf 'f')).contState.map
                (fun t => (t.input, t.app.showPopup, t.inputActive))
              = some ("", false, false)) :=
  ⟨rfl, C5_confirm_creates_file fsW sC5 rfl⟩

/-- C6 counterexample: cancelling the prompt with buffer "abc" leaves the
buffer holding "abc"; the claim that the buffer is discarded fails. -/
theorem C6_counterexample :
    (step fsW sC6 (keyOf 'q')).contState.map (fun t => t.input) = some "abc"
      ∧ ¬ (step fsW sC6 (keyOf 'q')).contState.map (fun t => t.input)
            = some "" := by
  constructor <;> decide

/-- C6 amended: pressing 'q' or Esc while the prompt is open closes the
overlay with no filesystem effect and no change to the lists or cursors, but
the accumulated buffer is retained, not discarded. -/
theorem C6_cancel_closes_overlay_keeps_buffer (fs : Fs) (s : UiState)
    (h : s.inputActive = true) :
    step fs s (keyOf 'q')
        = .cont { s with inputActive := false,
                         app := { s.app with showPopup := false } } []
      ∧ step fs s { code := .esc, ctrl := false }
        = .cont { s with inputActive := false,
                         app := { s.app with showPopup := false } } [] := by
  constructor <;> simp [step, keyOf, h]

/-- C6 witness: the amended cancel behavior at the concrete state `sC6`. -/
theorem C6_witness :
    sC6.inputActive = true
      ∧ (step fsW sC6 (keyOf 'q')
            = .cont { sC6 with inputActive := false,
                               app := { sC6.app with showPopup := false } } []
          ∧ step fsW sC6 { code := .esc, ctrl := false }
            = .cont { sC6 with inputActive := false,
                               app := { sC6.app with showPopup := false } } []) :=
  ⟨rfl, C6_cancel_closes_overlay_keeps_buffer fsW sC6 rfl⟩

/-- C7 counterexample: with an empty files list, pressing '1' sets the files
cursor to `Some 0`; the claim that it is left `None` on an empty list
fails. -/
theorem C7_counterexample :
    sC7.app.files.items = []
      ∧ (step fsW sC7 (keyOf '1')).contState.map
            (fun t => t.app.files.state.selected) = some (some 0) := by
  constructor <;> rfl

/-- C7 amended: when no overlay guard intervenes, '1' (resp. '2') sets the
files (resp. dirs) cursor to `Some 0` unconditionally, whether or not the
list is empty, and clears the other cursor. -/
theorem C7_focus_sets_cursor_unconditionally (fs : Fs) (s : UiState) :
    step fs s (keyOf '1')
        = .cont { s with app := { s.app with
            files := { s.app.files with
              state := s.app.files.state.select (some 0) },
            dirs := { s.app.dirs with
              state := s.app.dirs.state.select none } } } []
      ∧ step fs s (keyOf '2')
        = .cont { s with app := { s.app with
            dirs := { s.app.dirs with
              state := s.app.dirs.state.select (some 0) },
            files := { s.app.files with
              state := s.app.files.state.select none } } } [] := by
  constructor <;> simp [step, keyOf]

/-- C8 counterexample: when chdir fails on the target directory, the Enter
dispatch panics (the `unwrap` on `set_current_dir`); the claim that the step
does not crash and keeps a valid state fails. -/
theorem C8_counterexample :
    step fsBad sC8 enterKey = .panicked
      ∧ (step fsBad sC8 enterKey).contState = none := by
  constructor <;> rfl

/-- C8 amended: when `set_current_dir` fails on the resolved target of a
descend, the dispatch step panics (process crash); no previous state is kept
and no recoverable error is surfaced. -/
theorem C8_chdir_failure_panics (fs : Fs) (s : UiState) (j : Nat)
    (name : String)
    (hdir : s.app.dirs.state.selected = some j)
    (hget : s.app.dirs.items.get? j = some name)
    (hfail : fs.chdirOk (enterTarget s.app name) = false) :
    step fs s enterKey = .panicked := by
  simp only [List.get?_eq_getElem?] at hget
  simp [step, enterKey, enterStep, hdir, hget, hfail]

/-- C8 witness: the amended behavior at the concrete failing filesystem. -/
theorem C8_witness :
    sC8.app.dirs.state.selected = some 1
      ∧ sC8.app.dirs.items.get? 1 = some "src/"
      ∧ fsBad.chdirOk (enterTarget sC8.app "src/") = false
      ∧ step fsBad sC8 enterKey = .panicked :=
  ⟨rfl, rfl, rfl, C8_chdir_failure_panics fsBad sC8 1 "src/" rfl rfl rfl⟩

/-- C2: dispatching any key event from a state satisfying the
focus-exclusivity invariant (at most one of the files and dirs cursors is
set) yields a state that still satisfies it; quitting or panicking leaves no
state to judge. Every state reachable from an initial state satisfying the
invariant therefore satisfies it. -/
theorem C2_focus_exclusivity_preserved (fs : Fs) (s : UiState)
    (k : KeyEvent) (hinv : focusOk s.app) : focusOkRes (step fs s k) := by
  obtain ⟨code, ctrl⟩ := k
  cases code with
  | char c =>
      simp only [step]
      split_ifs <;>
        first
          | trivial
          | exact Or.inr rfl
          | exact Or.inl rfl
          | exact hinv
          | (rcases hinv with hf | hd
             · first
                 | exact Or.inl hf
                 | exact Or.inl (next_selected_none _ hf)
                 | exact Or.inl (previous_selected_none _ hf)
                 | exact Or.inl (replaceItems_selected_none _ _ hf)
             · first
                 | exact Or.inr hd
                 | exact Or.inr (next_selected_none _ hd)
                 | exact Or.inr (previous_selected_none _ hd)
                 | exact Or.inr (replaceItems_selected_none _ _ hd))
  | down =>
      simp only [step]
      split_ifs <;>
        first
          | exact hinv
          | (rcases hinv with hf | hd
             · first
                 | exact Or.inl hf
                 | exact Or.inl (next_selected_none _ hf)
             · first
                 | exact Or.inr hd
                 | exact Or.inr (next_selected_none _ hd))
  | up =>
      simp only [step]
      split_ifs <;>
        first
          | exact hinv
          | (rcases hinv with hf | hd
             · first
                 | exact Or.inl hf
                 | exact Or.inl (previous_selected_none _ hf)
             · first
                 | exact Or.inr hd
                 | exact Or.inr (previous_selected_none _ hd))
  | esc =>
      simp only [step]
      split_ifs <;> first | exact hinv | trivial
  | enter =>
      simp only [step]
      cases hdir : s.app.dirs.state.selected with
      | none =>
          simp only [enterStep, hdir]
          exact hinv
      | some j =>
          have hf : s.app.files.state.selected = none := by
            rcases hinv with hf | hd
            · exact hf
            · rw [hdir] at hd; cases hd
          cases hget : s.app.dirs.items.get? j with
          | none =>
              have hget2 := hget
              simp only [List.get?_eq_getElem?] at hget2
              simp [enterStep, hdir, hget, hget2]
              trivial
          | some name =>
              by_cases hok : fs.chdirOk (enterTarget s.app name) = true
              · simp only [enterStep, hdir, hget, hok, if_true]
                exact Or.inl (enterApply_files_selected_none fs s.app _ hf)
              · have hget2 := hget
                simp only [List.get?_eq_getElem?] at hget2
                simp [enterStep, hdir, hget, hget2, hok]
                trivial
  | backspace =>
      simp only [step]
      split_ifs <;> exact hinv
  | other => exact hinv

/-- C2 witness: the invariant holds at `sC2` (files cursor unset, dirs
cursor set) and is preserved by dispatching 'j' there. -/
theorem C2_witness :
    focusOk sC2.app ∧ focusOkRes (step fsW sC2 (keyOf 'j')) :=
  ⟨Or.inl rfl, C2_focus_exclusivity_preserved fsW sC2 (keyOf 'j') (Or.inl rfl)⟩

/-- C3: when a descend succeeds and the files cursor was on an index now out
of range of the repopulated files items, the resulting cursor is the new
last index for a non-empty new list, and `none` for an empty one. -/
theorem C3_files_cursor_clamped_after_descend (fs : Fs) (s : UiState)
    (j : Nat) (name : String) (i : Nat)
    (hdir : s.app.dirs.state.selected = some j)
    (hget : s.app.dirs.items.get? j = some name)
    (hok : fs.chdirOk (enterTarget s.app name) = true)
    (hsel : s.app.files.state.selected = some i)
    (hout : (fs.listFiles (enterTarget s.app name)).length ≤ i) :
    (step fs s enterKey).contState.map (fun t => t.app.files.state.selected)
      = some (if fs.listFiles (enterTarget s.app name) = [] then none
              else some ((fs.listFiles (enterTarget s.app name)).length - 1)) := by
  simp only [step, enterKey, enterStep, hdir, hget, hok, if_true]
  simp only [StepResult.contState, Option.map]
  exact congrArg some (enterApply_files_selected_clamped fs s.app _ i hsel hout)

/-- C3 witness: files cursor `Some 4` over 5 entries; the new directory has
2 files; after descend the cursor is `Some 1`. -/
theorem C3_witness :
    (fsW.listFiles (enterTarget sC3.app "../")).length ≤ 4
      ∧ (step fsW sC3 enterKey).contState.map
            (fun t => t.app.files.state.selected) = some (some 1) :=
  ⟨by decide,
    C3_files_cursor_clamped_after_descend fsW sC3 0 "../" 4 rfl rfl rfl rfl
      (by decide)⟩

/-- C4: descending on the synthetic parent entry changes the path to the
parent of the previous path, repopulates both lists from the new directory,
and sets the dirs cursor to `Some 0`. -/
theorem C4_descend_parent_repopulates (fs : Fs) (s : UiState) (j : Nat)
    (hdir : s.app.dirs.state.selected = some j)
    (hget : s.app.dirs.items.get? j = some "../")
    (hok : fs.chdirOk s.app.curDir.dropLast = true) :
    (step fs s enterKey).contState.map
        (fun t => (t.app.curDir, t.app.files.items, t.app.dirs.items,
                   t.app.dirs.state.selected))
      = some (s.app.curDir.dropLast, fs.listFiles s.app.curDir.dropLast,
              fs.listDirs s.app.curDir.dropLast, some 0) := by
  have htarget : enterTarget s.app "../" = s.app.curDir.dropLast := by
    simp [enterTarget]
  rw [← htarget] at hok
  simp only [step, enterKey, enterStep, hdir, hget, hok, if_true]
  simp only [StepResult.contState, Option.map]
  simp [htarget, enterApply_curDir, enterApply_files_items,
    enterApply_dirs_items, enterApply_dirs_selected]

/-- C4 witness: from `/a/b` with the dirs cursor on "../", descend lands in
`/a`, both lists are the new directory's listings, and the dirs cursor is
`Some 0`. -/
theorem C4_witness :
    sC4.app.dirs.state.selected = some 0
      ∧ (step fsW sC4 enterKey).contState.map
            (fun t => (t.app.curDir, t.app.files.items, t.app.dirs.items,
                       t.app.dirs.state.selected))
          = some (["a"], ["a.txt", "b.txt"], ["../", "src/"], some 0) :=
  ⟨rfl, C4_descend_parent_repopulates fsW sC4 0 rfl rfl rfl⟩

/-- C9: on a non-empty list whose cursor is a valid index, calling `next()`
exactly `items.length` times returns the cursor to its starting value. -/
theorem C9_next_wraparound {α : Type} (l : StatefulList α) (i : Nat)
    (hne : l.items ≠ []) (hsel : l.state.selected = some i)
    (hlt : i < l.items.length) :
    (StatefulList.next^[l.items.length] l).state.selected = some i := by
  rw [(next_iterate l i hne hsel hlt l.items.length).2,
    Nat.add_mod_right, Nat.mod_eq_of_lt hlt]

/-- C9 witness: three items with cursor on index 1; three `next()` calls
return the cursor to index 1. -/
theorem C9_witness :
    (lC9.items ≠ [] ∧ lC9.state.selected = some 1 ∧ 1 < lC9.items.length)
      ∧ (StatefulList.next^[lC9.items.length] lC9).state.selected = some 1 :=
  ⟨⟨by decide, rfl, by decide⟩,
    C9_next_wraparound lC9 1 (by decide) rfl (by decide)⟩

/-- C10: for a selected file, the Contents pane shows the concatenation of
at most the first 30 lines; when the file has more than 30 lines it appends
one line stating how many more lines remain and one line stating the total
line count. -/
theorem C10_preview_first_thirty_lines (readLines : String → List String)
    (a : App) (h : selectedFileName a ≠ "") :
    renderContentsText readLines a
      = concatAll ((readLines (selectedFileName a)).take 30)
        ++ (if 30 < (readLines (selectedFileName a)).length then
              ("\n... " ++ toString ((readLines (selectedFileName a)).length - 30)
                ++ " more lines")
                ++ ("\n" ++ toString (readLines (selectedFileName a)).length
                  ++ " total")
            else "") := by
  simp only [renderContentsText, if_pos h, previewFold_eq]
  by_cases h30 : 30 < (readLines (selectedFileName a)).length
  · rw [if_pos h30, if_pos h30, String.append_assoc]
  · rw [if_neg h30, if_neg h30, String.append_empty]

/-- C10 witness: a selected 32-line file; the preview is the first 30 lines
plus the two trailer lines. -/
theorem C10_witness :
    selectedFileName aC10 ≠ ""
      ∧ renderContentsText linesC10 aC10
          = concatAll ((linesC10 (selectedFileName aC10)).take 30)
            ++ (if 30 < (linesC10 (selectedFileName aC10)).length then
                  ("\n... "
                    ++ toString ((linesC10 (selectedFileName aC10)).length - 30)
                    ++ " more lines")
                    ++ ("\n" ++ toString (linesC10 (selectedFileName aC10)).length
                      ++ " total")
                else "") :=
  ⟨by decide, C10_preview_first_thirty_lines linesC10 aC10 (by decide)⟩

end Traverse
